import Mathlib

/-!
Verification of the column-statistics calculator in `src/main.py`.

The program reads a CSV file, locates one named column, and computes five
aggregates (count, min, max, sum, mean) over it.  The numeric domain is
modelled with `ℚ` (exact rationals) in place of 64-bit floats; every example
value in play is exactly representable, so this changes nothing observable.
The file system is modelled as a partial map from paths to file contents.
-/

namespace CsvStats

/-- A cell value: `none` models a null (empty) cell. -/
abbrev RawCell := Option String

/-- Modelled from the spec: splitting a string on a separator character,
used to model the CSV reader (the actual reader lives in the polars
library, which is not part of this repository's sources).  Splitting the
empty list yields one empty field, mirroring the usual semantics. -/
def splitListOn (sep : Char) : List Char → List (List Char)
  | [] => [[]]
  | c :: cs =>
    match splitListOn sep cs with
    | [] => if c = sep then [[], []] else [[c]]
    | r :: rs => if c = sep then [] :: r :: rs else (c :: r) :: rs

/-- Modelled from the spec: the CSV scan performed by the polars library
(`pl.scan_csv`), which is not part of this repository's sources.  The file
content is split into lines, blank lines are skipped, and each line is
split on commas into fields.  The first row is the header. -/
def parseCsv (content : String) : List (List String) :=
  (((splitListOn (Char.ofNat 10) content.data).filter (fun l => l ≠ [])).map
    (fun line => (splitListOn (Char.ofNat 44) line).map String.mk))

/-- Numeric value of a list of decimal digit characters. -/
def digitsToNat (cs : List Char) : Nat :=
  cs.foldl (fun acc c => 10 * acc + (c.toNat - 48)) 0

/-- Modelled from the spec: numeric coercion of an unsigned decimal literal,
optionally with a fractional part, to a rational.  This models the
successful cases of the polars `cast(pl.Float64)` on strings; the polars
cast itself is not part of this repository's sources. -/
def parseUnsigned (cs : List Char) : Option ℚ :=
  match splitListOn (Char.ofNat 46) cs with
  | [intPart] =>
    if intPart ≠ [] ∧ intPart.all Char.isDigit then
      some ((digitsToNat intPart : ℚ))
    else none
  | [intPart, fracPart] =>
    if (intPart ≠ [] ∨ fracPart ≠ []) ∧ intPart.all Char.isDigit ∧
        fracPart.all Char.isDigit then
      some ((digitsToNat intPart : ℚ) +
        (digitsToNat fracPart : ℚ) / ((10 : ℚ) ^ fracPart.length))
    else none
  | _ => none

/-- Modelled from the spec: coercion of one raw cell to a 64-bit float
(modelled as `ℚ`); values that fail to parse yield `none` and are treated
as null for the `min`/`max`/`sum`/`mean` aggregates. -/
def parseFloat? (s : String) : Option ℚ :=
  match s.data with
  | [] => none
  | c :: cs =>
    if c = Char.ofNat 45 then (parseUnsigned cs).map (fun q => -q)
    else if c = Char.ofNat 43 then parseUnsigned cs
    else parseUnsigned (c :: cs)

/-- The statistics record returned by `process_csv` (the `SelectedStats`
dataclass of `src/main.py`), with floats modelled as `ℚ`. -/
structure SelectedStats where
  count : Nat
  min : Option ℚ
  max : Option ℚ
  sum : Option ℚ
  mean : Option ℚ
deriving DecidableEq, Repr

/-- The coerced numeric view of a raw column: the values that successfully
cast to float, in order; nulls and failed coercions are dropped. -/
def coerceColumn (raw : List RawCell) : List ℚ :=
  raw.filterMap (fun o => o.bind parseFloat?)

/-- Modelled from the spec: the five polars aggregation expressions of
`src/main.py` lines 39-45 (the polars engine itself is not part of this
repository's sources).  `count` counts non-null raw entries before
coercion; `min`/`max`/`sum`/`mean` range over the coerced subset and are
absent when that subset is empty. -/
def computeStats (raw : List RawCell) : SelectedStats :=
  { count := raw.countP (fun o => o.isSome)
  , min := (coerceColumn raw).min?
  , max := (coerceColumn raw).max?
  , sum := if coerceColumn raw = [] then none else some (coerceColumn raw).sum
  , mean := if coerceColumn raw = [] then none
            else some ((coerceColumn raw).sum / ((coerceColumn raw).length : ℚ)) }

/-- The error taxonomy of `process_csv`: `FileNotFoundError`,
`ValueError` (column not found) and `RuntimeError` (any other read or
processing failure), each carrying the data interpolated into its
message. -/
inductive CsvError where
  | fileNotFound (path : String)
  | columnNotFound (column : String)
  | readError (msg : String)
deriving DecidableEq, Repr

/-- The file system: a map from paths to file contents, `none` when the
path does not resolve to a readable file. -/
def FileSystem := String → Option String

/-- The raw target column extracted from the data rows: the cell at the
column's index in each row, with empty cells read as null. -/
def rawColumn (rows : List (List String)) (i : Nat) : List RawCell :=
  rows.map (fun r =>
    match r.get? i with
    | none => none
    | some c => if c = "" then none else some c)

/-- Embedding of `process_csv` from `src/main.py`: resolve the file, scan
it as CSV (a file with no rows at all is a read failure), locate the named
column in the header, and compute the statistics. -/
def process_csv (fs : FileSystem) (filePath : String) (columnName : String) :
    Except CsvError SelectedStats :=
  match fs filePath with
  | none => .error (.fileNotFound filePath)
  | some content =>
    match parseCsv content with
    | [] => .error (.readError "empty CSV")
    | header :: rows =>
      if columnName ∈ header then
        .ok (computeStats (rawColumn rows (header.indexOf columnName)))
      else
        .error (.columnNotFound columnName)

/-- A single-quote character, used in the program's interpolated
messages. -/
def sq : String := String.singleton (Char.ofNat 39)

/-- The error messages raised by `process_csv` (lines 33, 52, 54 of
`src/main.py`). -/
def errorMessage : CsvError → String
  | .fileNotFound p => "Error: The file " ++ sq ++ p ++ sq ++ " was not found."
  | .columnNotFound c => "Error: Column " ++ sq ++ c ++ sq ++ " not found in the file."
  | .readError m => "Error processing data with Polars: " ++ m

/-- The four digits after the decimal point of a `%.4f` rendering:
`m` is the scaled fractional magnitude, already reduced modulo 10000. -/
def fourFracDigits (m : Nat) : String :=
  String.mk [Nat.digitChar (m / 1000 % 10), Nat.digitChar (m / 100 % 10),
    Nat.digitChar (m / 10 % 10), Nat.digitChar (m % 10)]

/-- Embedding of `format_opt` from `src/main.py`: `N/A` for an absent
value, otherwise the value rendered with exactly 4 digits after the
decimal point (Python's `f-string` `:.4f`). -/
def format_opt : Option ℚ → String
  | none => "N/A"
  | some q =>
    let scaled : Int := round (q * 10000)
    let signStr := if scaled < 0 then "-" else ""
    let n := scaled.natAbs
    signStr ++ Nat.repr (n / 10000) ++ "." ++ fourFracDigits (n % 10000)

/-- The observable outcome of one invocation of `main`: exit status,
standard-output lines and standard-error lines. -/
structure RunOutput where
  exitCode : Nat
  stdoutLines : List String
  stderrLines : List String
deriving DecidableEq, Repr

/-- Embedding of `main` from `src/main.py` (after argument parsing): run
`process_csv`; on success print the seven result lines and exit 0; on any
of the three errors print its single message to standard error and exit
1. -/
def run (fs : FileSystem) (filePath : String) (columnName : String) :
    RunOutput :=
  match process_csv fs filePath columnName with
  | .ok stats =>
    { exitCode := 0
    , stdoutLines :=
        [ "Output for python-polars"
        , "--- Statistics for " ++ sq ++ columnName ++ sq ++ " ---"
        , "Count: " ++ Nat.repr stats.count
        , "Min:   " ++ format_opt stats.min
        , "Max:   " ++ format_opt stats.max
        , "Sum:   " ++ format_opt stats.sum
        , "Mean:  " ++ format_opt stats.mean ]
    , stderrLines := [] }
  | .error e =>
    { exitCode := 1, stdoutLines := [], stderrLines := [errorMessage e] }

/-! ## Helper lemmas -/

/-- The coerced subset never has more values than the non-null raw count. -/
theorem coerceColumn_length_le (raw : List RawCell) :
    (coerceColumn raw).length ≤ raw.countP (fun o => o.isSome) := by
  induction raw with
  | nil => simp [coerceColumn]
  | cons o t ih =>
    cases h : o.bind parseFloat? with
    | none =>
      have hstep : coerceColumn (o :: t) = coerceColumn t := by
        simp [coerceColumn, List.filterMap_cons, h]
      rw [hstep, List.countP_cons]
      exact le_trans ih (Nat.le_add_right _ _)
    | some q =>
      have hstep : coerceColumn (o :: t) = q :: coerceColumn t := by
        simp [coerceColumn, List.filterMap_cons, h]
      have hsome : o.isSome := by cases o <;> simp_all
      rw [hstep, List.countP_cons]
      simp only [hsome, if_pos, List.length_cons]
      omega

/-- When every raw cell coerces successfully, the coerced subset has one
value per raw cell. -/
theorem coerceColumn_length_of_all (raw : List RawCell)
    (h : ∀ o ∈ raw, (o.bind parseFloat?).isSome) :
    (coerceColumn raw).length = raw.length := by
  induction raw with
  | nil => rfl
  | cons o t ih =>
    have ho := h o (List.mem_cons_self o t)
    obtain ⟨q, hq⟩ := Option.isSome_iff_exists.mp ho
    have ht : ∀ x ∈ t, (x.bind parseFloat?).isSome := fun x hx =>
      h x (List.mem_cons_of_mem o hx)
    simp only [coerceColumn, List.filterMap_cons, hq, List.length_cons] at *
    exact congrArg Nat.succ (ih ht)

/-- The mean of a nonempty rational list lies between its min and max. -/
theorem sum_div_length_bounds (l : List ℚ) (mn mx : ℚ)
    (hmn : l.min? = some mn) (hmx : l.max? = some mx) :
    mn ≤ l.sum / (l.length : ℚ) ∧ l.sum / (l.length : ℚ) ≤ mx := by
  have hne : l ≠ [] := by rintro rfl; simp at hmn
  have hmnle : ∀ b, b ∈ l → mn ≤ b :=
    (List.le_min?_iff (fun _ _ _ => le_min_iff) hmn).mp (le_refl mn)
  have hmxle : ∀ b ∈ l, b ≤ mx :=
    (List.max?_le_iff (fun _ _ _ => max_le_iff) hmx).mp (le_refl mx)
  have hlen : (0 : ℚ) < (l.length : ℚ) := by
    have := List.length_pos.mpr hne
    exact_mod_cast this
  have h1 : l.length • mn ≤ l.sum := List.card_nsmul_le_sum l mn hmnle
  have h2 : l.sum ≤ l.length • mx := List.sum_le_card_nsmul l mx hmxle
  rw [nsmul_eq_mul] at h1 h2
  constructor
  · rw [le_div_iff₀ hlen]
    linarith
  · rw [div_le_iff₀ hlen]
    linarith

/-! ## Claim theorems -/

/-- C1: the returned `count` equals the number of non-null raw entries
(counted before numeric coercion, so it can only exceed the coerced
population), while `min`, `max`, `sum`, `mean` are computed over the
coerced subset; on the spec's example CSV `amount\n10\nabc\n30\n` the
result is count=3, min=10, max=30, sum=40, mean=20. -/
theorem count_raw_aggregates_coerced :
    (∀ raw : List RawCell,
      (computeStats raw).count = raw.countP (fun o => o.isSome) ∧
      (coerceColumn raw).length ≤ (computeStats raw).count) ∧
    process_csv (fun p => if p = "data.csv" then some "amount\n10\nabc\n30\n" else none)
        "data.csv" "amount" =
      Except.ok { count := 3, min := some 10, max := some 30, sum := some 40,
                  mean := some 20 } := by
  constructor
  · intro raw
    refine ⟨rfl, ?_⟩
    simpa [computeStats] using coerceColumn_length_le raw
  · have h1 : (fun p => if p = "data.csv" then some "amount\n10\nabc\n30\n" else none)
        "data.csv" = some "amount\n10\nabc\n30\n" := rfl
    have h2 : parseCsv "amount\n10\nabc\n30\n" = [["amount"], ["10"], ["abc"], ["30"]] := by
      decide
    have h3 : rawColumn [["10"], ["abc"], ["30"]] 0 = [some "10", some "abc", some "30"] := by
      decide
    have h4 : coerceColumn [some "10", some "abc", some "30"] = [10, 30] := by
      simp +decide [coerceColumn, parseFloat?, parseUnsigned, digitsToNat]
    simp +decide [process_csv, h1, h2, h3, h4, List.indexOf, List.findIdx, List.findIdx.go,
      computeStats]
    norm_num [List.min?, List.max?, min_def, max_def]

/-- C2: when the coerced subset is empty, `min`, `max`, `sum` and `mean`
are all absent (not zero, not an error) and `count` still counts the
non-null raw entries; on the spec's all-blank example `amount\n\n\n` the
result is count=0 with all four aggregates absent. -/
theorem empty_coercion_all_aggregates_absent :
    (∀ raw : List RawCell, coerceColumn raw = [] →
      (computeStats raw).min = none ∧ (computeStats raw).max = none ∧
      (computeStats raw).sum = none ∧ (computeStats raw).mean = none ∧
      (computeStats raw).count = raw.countP (fun o => o.isSome)) ∧
    process_csv (fun p => if p = "data.csv" then some "amount\n\n\n" else none)
        "data.csv" "amount" =
      Except.ok { count := 0, min := none, max := none, sum := none, mean := none } := by
  constructor
  · intro raw h
    simp [computeStats, h]
  · have h1 : (fun p => if p = "data.csv" then some "amount\n\n\n" else none)
        "data.csv" = some "amount\n\n\n" := rfl
    have h2 : parseCsv "amount\n\n\n" = [["amount"]] := by decide
    simp +decide [process_csv, h1, h2, List.indexOf, List.findIdx, List.findIdx.go,
      computeStats, rawColumn, coerceColumn]

/-- C2 witness: a column whose single raw entry fails coercion has all
four aggregates absent while its count is 1. -/
theorem empty_coercion_all_aggregates_absent_witness :
    (computeStats [some "abc"]).min = none ∧ (computeStats [some "abc"]).max = none ∧
    (computeStats [some "abc"]).sum = none ∧ (computeStats [some "abc"]).mean = none ∧
    (computeStats [some "abc"]).count = List.countP (fun o => o.isSome) [some "abc"] :=
  empty_coercion_all_aggregates_absent.1 [some "abc"] (by decide)

/-- C3: given a readable file whose CSV parse has a header row, the run
fails with `ColumnNotFound` exactly when the requested name is missing
from the header, and in that case no `StatsResult` is produced. -/
theorem columnNotFound_iff_missing_header (fs : FileSystem)
    (path col content : String) (header : List String) (rows : List (List String))
    (hfile : fs path = some content) (hparse : parseCsv content = header :: rows) :
    (process_csv fs path col = .error (.columnNotFound col) ↔ col ∉ header) ∧
    (col ∉ header → ∀ stats, process_csv fs path col ≠ .ok stats) := by
  simp only [process_csv, hfile, hparse]
  by_cases h : col ∈ header <;> simp [h]

/-- C3 witness: on a one-column file, asking for the column `missing`
fails with `ColumnNotFound` and asking for `amount` does not. -/
theorem columnNotFound_iff_missing_header_witness :
    process_csv (fun p => if p = "data.csv" then some "amount\n10\n" else none)
        "data.csv" "missing" = .error (.columnNotFound "missing") ∧
    ¬("amount" ∉ ["amount"]) := by
  constructor
  · exact (columnNotFound_iff_missing_header
      (fun p => if p = "data.csv" then some "amount\n10\n" else none)
      "data.csv" "missing" "amount\n10\n" ["amount"] [["10"]] rfl (by decide)).1.mpr
      (by decide)
  · decide

/-- C4: a path the file system cannot resolve fails with `FileNotFound`
and produces no `StatsResult`. -/
theorem fileNotFound_on_unresolvable_path (fs : FileSystem) (path col : String)
    (h : fs path = none) :
    process_csv fs path col = .error (.fileNotFound path) ∧
    ∀ stats, process_csv fs path col ≠ .ok stats := by
  unfold process_csv
  rw [h]
  simp

/-- C4 witness: on an empty file system every lookup fails with
`FileNotFound`. -/
theorem fileNotFound_on_unresolvable_path_witness :
    process_csv (fun _ => none) "nope.csv" "amount" =
      .error (.fileNotFound "nope.csv") ∧
    ∀ stats, process_csv (fun _ => none) "nope.csv" "amount" ≠ .ok stats :=
  fileNotFound_on_unresolvable_path (fun _ => none) "nope.csv" "amount" rfl

/-- `Nat.digitChar` of a value below ten is a decimal digit character. -/
theorem digitChar_isDigit (k : Nat) (h : k < 10) : (Nat.digitChar k).isDigit = true := by
  interval_cases k <;> decide

/-- C5: `format_opt` renders an absent value as the literal token `N/A`
and a present value with a decimal point followed by exactly 4 digit
characters; on every successful run `main` prints the five statistics
lines with `count` rendered as a plain integer. -/
theorem render_four_decimals_or_na :
    format_opt none = "N/A" ∧
    (∀ q : ℚ, ∃ intPart : String, ∃ d1 d2 d3 d4 : Char,
      format_opt (some q) = intPart ++ "." ++ String.mk [d1, d2, d3, d4] ∧
      d1.isDigit = true ∧ d2.isDigit = true ∧ d3.isDigit = true ∧ d4.isDigit = true) ∧
    (∀ (fs : FileSystem) (path col : String) (stats : SelectedStats),
      process_csv fs path col = .ok stats →
      (run fs path col).stdoutLines =
        [ "Output for python-polars"
        , "--- Statistics for " ++ sq ++ col ++ sq ++ " ---"
        , "Count: " ++ Nat.repr stats.count
        , "Min:   " ++ format_opt stats.min
        , "Max:   " ++ format_opt stats.max
        , "Sum:   " ++ format_opt stats.sum
        , "Mean:  " ++ format_opt stats.mean ]) := by
  refine ⟨rfl, ?_, ?_⟩
  · intro q
    refine ⟨(if round (q * 10000) < 0 then "-" else "") ++
        Nat.repr ((round (q * 10000)).natAbs / 10000),
      Nat.digitChar ((round (q * 10000)).natAbs % 10000 / 1000 % 10),
      Nat.digitChar ((round (q * 10000)).natAbs % 10000 / 100 % 10),
      Nat.digitChar ((round (q * 10000)).natAbs % 10000 / 10 % 10),
      Nat.digitChar ((round (q * 10000)).natAbs % 10000 % 10),
      rfl, ?_, ?_, ?_, ?_⟩ <;>
      exact digitChar_isDigit _ (Nat.mod_lt _ (by norm_num))
  · intro fs path col stats h
    simp [run, h]

/-- C5 witness: on a readable one-value file the seven output lines are
produced, with the count rendered as the plain integer `1`. -/
theorem render_four_decimals_or_na_witness :
    (run (fun _ => some "amount\nabc\n") "data.csv" "amount").stdoutLines =
      [ "Output for python-polars"
      , "--- Statistics for " ++ sq ++ "amount" ++ sq ++ " ---"
      , "Count: " ++ Nat.repr 1
      , "Min:   " ++ format_opt none
      , "Max:   " ++ format_opt none
      , "Sum:   " ++ format_opt none
      , "Mean:  " ++ format_opt none ] :=
  render_four_decimals_or_na.2.2 (fun _ => some "amount\nabc\n") "data.csv" "amount"
    { count := 1, min := none, max := none, sum := none, mean := none } (by
      have h2 : parseCsv "amount\nabc\n" = [["amount"], ["abc"]] := by decide
      simp +decide [process_csv, h2, List.indexOf, List.findIdx, List.findIdx.go,
        computeStats, rawColumn, coerceColumn, parseFloat?, parseUnsigned])

/-- C6: for a nonempty column in which every raw value parses as a
number, `count` equals the number of rows and the mean equals the sum
divided by the count (exactly, in the rational model). -/
theorem all_numeric_mean_eq_sum_div_count
    (raw : List RawCell) (hne : raw ≠ [])
    (hall : ∀ o ∈ raw, (o.bind parseFloat?).isSome) :
    (computeStats raw).count = raw.length ∧
    ∃ s m : ℚ, (computeStats raw).sum = some s ∧ (computeStats raw).mean = some m ∧
      m = s / ((computeStats raw).count : ℚ) := by
  have hcnt : raw.countP (fun o => o.isSome) = raw.length :=
    List.countP_eq_length.mpr (fun o ho => by
      have h := hall o ho
      cases o with
      | none => simp at h
      | some s => simp)
  have hlen := coerceColumn_length_of_all raw hall
  have hxs : coerceColumn raw ≠ [] := by
    intro h0
    rw [h0] at hlen
    simp at hlen
    exact hne (List.length_eq_zero.mp hlen.symm)
  constructor
  · simpa [computeStats] using hcnt
  · refine ⟨(coerceColumn raw).sum,
      (coerceColumn raw).sum / ((coerceColumn raw).length : ℚ), ?_, ?_, ?_⟩
    · simp [computeStats, hxs]
    · simp [computeStats, hxs]
    · have hc : (computeStats raw).count = (coerceColumn raw).length := by
        simp [computeStats, hcnt, hlen]
      rw [hc]

/-- C6 witness: a two-row all-numeric column has count 2 and its mean is
its sum divided by its count. -/
theorem all_numeric_mean_eq_sum_div_count_witness :
    (computeStats [some "10", some "30"]).count = (List.length [some "10", some "30"]) ∧
    ∃ s m : ℚ, (computeStats [some "10", some "30"]).sum = some s ∧
      (computeStats [some "10", some "30"]).mean = some m ∧
      m = s / ((computeStats [some "10", some "30"]).count : ℚ) :=
  all_numeric_mean_eq_sum_div_count [some "10", some "30"] (by decide) (by decide)

/-- C7: `main` exits 0 on success printing the full seven-line result and
nothing to standard error, and exits 1 on any error with exactly one
standard-error line and no standard output at all. -/
theorem exit_codes_and_no_partial_output (fs : FileSystem) (path col : String) :
    ((∃ stats, process_csv fs path col = .ok stats) →
      (run fs path col).exitCode = 0 ∧ (run fs path col).stderrLines = [] ∧
      (run fs path col).stdoutLines.length = 7) ∧
    ((∃ e, process_csv fs path col = .error e) →
      (run fs path col).exitCode = 1 ∧ (run fs path col).stderrLines.length = 1 ∧
      (run fs path col).stdoutLines = []) := by
  constructor
  · rintro ⟨stats, h⟩
    simp [run, h]
  · rintro ⟨e, h⟩
    simp [run, h]

/-- C7 witness: a missing file exits 1 with one error line and no
standard output. -/
theorem exit_codes_and_no_partial_output_witness :
    (run (fun _ => none) "nope.csv" "amount").exitCode = 1 ∧
    (run (fun _ => none) "nope.csv" "amount").stderrLines.length = 1 ∧
    (run (fun _ => none) "nope.csv" "amount").stdoutLines = [] :=
  (exit_codes_and_no_partial_output (fun _ => none) "nope.csv" "amount").2
    ⟨.fileNotFound "nope.csv", rfl⟩

/-- C8: determinism — two invocations of `process_csv` on the same file
content and column name return equal statistics, field by field. -/
theorem two_runs_identical (fs : FileSystem) (path col : String)
    (s1 s2 : SelectedStats)
    (h1 : process_csv fs path col = .ok s1)
    (h2 : process_csv fs path col = .ok s2) :
    s1.count = s2.count ∧ s1.min = s2.min ∧ s1.max = s2.max ∧
    s1.sum = s2.sum ∧ s1.mean = s2.mean := by
  rw [h1] at h2
  injection h2 with h
  subst h
  exact ⟨rfl, rfl, rfl, rfl, rfl⟩

/-- C8 witness: two runs on the same one-row file agree field by field. -/
theorem two_runs_identical_witness :
    (computeStats [some "abc"]).count = (computeStats [some "abc"]).count ∧
    (computeStats [some "abc"]).min = (computeStats [some "abc"]).min ∧
    (computeStats [some "abc"]).max = (computeStats [some "abc"]).max ∧
    (computeStats [some "abc"]).sum = (computeStats [some "abc"]).sum ∧
    (computeStats [some "abc"]).mean = (computeStats [some "abc"]).mean :=
  two_runs_identical (fun _ => some "amount\nabc\n") "data.csv" "amount"
    (computeStats [some "abc"]) (computeStats [some "abc"]) rfl rfl

/-- C9: the error surface of `process_csv` is closed — every invocation
either returns statistics or fails with exactly one of the three wrapped
errors (`FileNotFound` with the path, `ColumnNotFound` with the column,
or a `ReadError`); nothing else escapes. -/
theorem error_surface_closed (fs : FileSystem) (path col : String) :
    (∃ stats, process_csv fs path col = .ok stats) ∨
    process_csv fs path col = .error (.fileNotFound path) ∨
    process_csv fs path col = .error (.columnNotFound col) ∨
    ∃ m, process_csv fs path col = .error (.readError m) := by
  cases hf : fs path with
  | none =>
    right; left
    simp [process_csv, hf]
  | some content =>
    cases hp : parseCsv content with
    | nil =>
      right; right; right
      exact ⟨"empty CSV", by simp [process_csv, hf, hp]⟩
    | cons header rows =>
      by_cases h : col ∈ header
      · left
        exact ⟨computeStats (rawColumn rows (header.indexOf col)),
          by simp [process_csv, hf, hp, h]⟩
      · right; right; left
        simp [process_csv, hf, hp, h]

/-- C10: `min`, `max` and `mean` are absent or present together, and when
all three are present the mean lies between the min and the max. -/
theorem min_max_mean_consistent (raw : List RawCell) :
    ((computeStats raw).min = none ↔ (computeStats raw).max = none) ∧
    ((computeStats raw).min = none ↔ (computeStats raw).mean = none) ∧
    (∀ mn mx me : ℚ, (computeStats raw).min = some mn →
      (computeStats raw).max = some mx → (computeStats raw).mean = some me →
      mn ≤ me ∧ me ≤ mx) := by
  refine ⟨?_, ?_, ?_⟩
  · by_cases hxs : coerceColumn raw = [] <;> simp [computeStats, hxs]
  · by_cases hxs : coerceColumn raw = [] <;> simp [computeStats, hxs]
  · intro mn mx me hmn hmx hme
    by_cases hxs : coerceColumn raw = []
    · rw [show (computeStats raw).min = (coerceColumn raw).min? from rfl, hxs] at hmn
      simp at hmn
    · simp only [computeStats] at hmn hmx hme
      rw [if_neg hxs] at hme
      have hb := sum_div_length_bounds (coerceColumn raw) mn mx hmn hmx
      have hme' := Option.some.inj hme
      rw [hme'] at hb
      exact hb

/-- C10 witness: for the column with values 10 and 30 the mean 20 lies
between the min 10 and the max 30. -/
theorem min_max_mean_consistent_witness : (10 : ℚ) ≤ 20 ∧ (20 : ℚ) ≤ 30 :=
  (min_max_mean_consistent [some "10", some "30"]).2.2 10 30 20
    (by
      have h4 : coerceColumn [some "10", some "30"] = [10, 30] := by
        simp +decide [coerceColumn, parseFloat?, parseUnsigned, digitsToNat]
      simp [computeStats, h4]
      norm_num [List.min?, min_def])
    (by
      have h4 : coerceColumn [some "10", some "30"] = [10, 30] := by
        simp +decide [coerceColumn, parseFloat?, parseUnsigned, digitsToNat]
      simp [computeStats, h4]
      norm_num [List.max?, max_def])
    (by
      have h4 : coerceColumn [some "10", some "30"] = [10, 30] := by
        simp +decide [coerceColumn, parseFloat?, parseUnsigned, digitsToNat]
      simp [computeStats, h4]
      norm_num)

end CsvStats
